import Mathlib

/-!
Verification development for the `ui-theme` repository.

The repository's core is embedded shallowly:

* `src/color.rs` — `Color`, `Color::hex` / `const_parse_hex`, `Color::darken`,
  `Color::mix`.  The color operations are `const fn`s evaluated in const
  context (the palette of `src/default_theme.rs`), where Rust arithmetic is
  overflow-checked; a checked operation that would overflow or underflow is
  modelled by `Option.none` (the panic-class outcome), while `as`-casts, which
  always truncate and never panic, are modelled by `% 256`.
* `src/lib.rs` — `Theme`, `Theme::empty`, `Theme::get`, `Theme::get_mut`,
  `Theme::set_name`, the `Widget` / `WidgetState` enumerations and the
  `WIDGETS` / `WIDGET_STATES` tables, `WidgetProperties` and the style
  records.  The hash map is abstracted as an association list with unique
  keys (`mapLookup` / `mapInsert`); the hash seeding only affects bucket
  layout, never the key-value mapping, so it does not appear in the model.
* `src/default_theme.rs` — the palette (`ThemeType` associated constants)
  and the builder `default_theme_inner` / `default_theme`.

`f32` fields only ever hold small integer literals in this code (no float
arithmetic is performed anywhere in the embedded core), so they are modelled
exactly by `Rat`.  `u8`/`u16`/`u32` values are modelled as `Nat` with the
wrapping and checking behaviour written out where it matters.
-/

namespace UiTheme

/-! ### Color (src/color.rs) -/

/-- Embedding of `Color` from src/color.rs: 32-bit RGBA, four `u8` channels. -/
structure Color where
  r : Nat
  g : Nat
  b : Nat
  a : Nat
deriving DecidableEq, Repr

/-- Embedding of `Color::new` from src/color.rs. -/
def Color.new (r g b a : Nat) : Color := ⟨r, g, b, a⟩

/-- The digit `match` inside `const_parse_hex` (src/color.rs lines 117-122):
byte values of `0`-`9`, `a`-`f`, `A`-`F`; any other byte panics (`none`). -/
def hexDigitVal (byte : Nat) : Option Nat :=
  if 48 ≤ byte ∧ byte ≤ 57 then some (byte - 48)
  else if 97 ≤ byte ∧ byte ≤ 102 then some (byte - 97 + 10)
  else if 65 ≤ byte ∧ byte ≤ 70 then some (byte - 65 + 10)
  else none

/-- Embedding of `const_parse_hex` from src/color.rs lines 111-129: a left fold
`result = result * 16 + value` over the bytes, in a `u8` accumulator.  The
`u8` addition and multiplication are overflow-checked in const context, so a
step whose exact value would exceed 255 is a panic (`none`); for the
two-digit slices the crate feeds it, the bound is never reached. -/
def constParseHex (hex : List Nat) : Option Nat :=
  hex.foldlM
    (fun result byte => do
      let value ← hexDigitVal byte
      if result * 16 + value < 256 then some (result * 16 + value) else none)
    0

/-- Embedding of `Color::hex` from src/color.rs lines 33-45, on the byte string of the
input: bytes 1-2 parse to red, 3-4 to green, 5-6 to blue, alpha fixed 255.
Byte 0 is never inspected; an out-of-range index is a panic (`none`). -/
def Color.hex (bytes : List Nat) : Option Color := do
  let b1 ← bytes.get? 1
  let b2 ← bytes.get? 2
  let b3 ← bytes.get? 3
  let b4 ← bytes.get? 4
  let b5 ← bytes.get? 5
  let b6 ← bytes.get? 6
  let first ← constParseHex [b1, b2]
  let second ← constParseHex [b3, b4]
  let third ← constParseHex [b5, b6]
  some (Color.new first second third 255)

/-- Embedding of `Color::hex` applied to a Rust string literal (ASCII, so UTF-8 bytes
coincide with the character codes). -/
def hexColor (s : String) : Option Color :=
  Color.hex (s.data.map Char.toNat)

/-- One channel of `Color::darken` (src/color.rs lines 48-57):
`(($e as u16 * percent as u16) / 100) as u8`.  The `u16` product of two `u8`s
is at most `255 * 255 < 2^16`, so it never overflows; the final `as u8` cast
truncates (`% 256`). -/
def darkenChannel (e percent : Nat) : Nat :=
  e * percent / 100 % 256

/-- Embedding of `Color::darken` from src/color.rs lines 48-57: the macro is applied to
`r`, `g` and `b` only; the alpha channel is passed through unchanged. -/
def Color.darken (c : Color) (percent : Nat) : Color :=
  Color.new (darkenChannel c.r percent) (darkenChannel c.g percent)
    (darkenChannel c.b percent) c.a

/-- One channel of `Color::mix` (src/color.rs lines 60-74):
`e + ((o - e) * p) / 100` with `e`, `o`, `p` the `u8` inputs widened to
`u16`.  The subtraction `o - e` is *unsigned* 16-bit: when `o < e` it
underflows, which in const context (where all of the crate's calls live) is a
panic-class failure, modelled as `none`.  When `o ≥ e`, `(o - e) * p ≤
255 * 255` and `e + _ ≤ 905` stay inside `u16`; the final `as u8` cast
truncates (`% 256`). -/
def mixChannel (e o percent : Nat) : Option Nat :=
  if o < e then none
  else some ((e + (o - e) * percent / 100) % 256)

/-- Embedding of `Color::mix` from src/color.rs lines 60-74, applied to all four channels
(alpha included). -/
def Color.mix (c other : Color) (percent : Nat) : Option Color := do
  let r ← mixChannel c.r other.r percent
  let g ← mixChannel c.g other.g percent
  let b ← mixChannel c.b other.b percent
  let a ← mixChannel c.a other.a percent
  some (Color.new r g b a)

/-! ### Style records (src/lib.rs lines 543-966, src/text.rs, src/border.rs,
src/margin.rs, src/shadow.rs) -/

/-- Embedding of `FontFamily` from src/lib.rs lines 797-809. -/
inductive FontFamily where
  | Monospace
  | SansSerif
  | Serif
  | Custom (family : String)
deriving DecidableEq, Repr

/-- Embedding of `TextAlignment` from src/lib.rs lines 826-835. -/
inductive TextAlignment where
  | Left
  | Center
  | Right
deriving DecidableEq, Repr

/-- Embedding of `TextStyle` from src/lib.rs lines 634-664.  The `f32` fields only ever
hold exact small literals here, modelled by `Rat`. -/
structure TextStyle where
  family : FontFamily
  size : Rat
  orientation : Rat
  weight : Nat
  italic : Bool
  underline : Bool
  strikethrough : Bool
  color : Color
  halignment : TextAlignment
  valignment : TextAlignment
deriving DecidableEq, Repr

/-- Embedding of `TextStyle::new` from src/lib.rs lines 668-681. -/
def TextStyle.new (size : Rat) (family : FontFamily) : TextStyle :=
  { family := family
    size := size
    orientation := 0
    weight := 400
    italic := false
    underline := false
    strikethrough := false
    color := Color.new 0 0 0 255
    halignment := TextAlignment.Left
    valignment := TextAlignment.Center }

/-- Embedding of `TextStyle::set_color`. -/
def TextStyle.set_color (t : TextStyle) (color : Color) : TextStyle :=
  { t with color := color }

/-- Embedding of `TextStyle::set_halignment`. -/
def TextStyle.set_halignment (t : TextStyle) (halignment : TextAlignment) : TextStyle :=
  { t with halignment := halignment }

/-- Embedding of `TextStyle::set_valignment`. -/
def TextStyle.set_valignment (t : TextStyle) (valignment : TextAlignment) : TextStyle :=
  { t with valignment := valignment }

/-- Embedding of `Border` from src/lib.rs lines 546-558. -/
structure Border where
  thickness : Rat
  color : Color
  dashes : Option (List Rat)
  radius : Rat
deriving DecidableEq, Repr

/-- Embedding of `Border::new` from src/lib.rs lines 562-569. -/
def Border.new (thickness : Rat) (color : Color) : Border :=
  { thickness := thickness, color := color, dashes := none, radius := 0 }

/-- Embedding of `Border::set_radius`. -/
def Border.set_radius (b : Border) (radius : Rat) : Border :=
  { b with radius := radius }

/-- Embedding of `Fill` from src/lib.rs lines 620-623: currently only a solid color. -/
inductive Fill where
  | color (c : Color)
deriving DecidableEq, Repr

/-- Embedding of `Shadow` from src/lib.rs lines 840-849. -/
structure Shadow where
  color : Color
  offset : Rat × Rat
  blur : Rat
deriving DecidableEq, Repr

/-- Embedding of `Margin` from src/lib.rs lines 898-910. -/
structure Margin where
  left : Rat
  right : Rat
  top : Rat
  bottom : Rat
deriving DecidableEq, Repr

/-- Embedding of `Margin::new` from src/lib.rs lines 914-921. -/
def Margin.new (left right top bottom : Rat) : Margin :=
  { left := left, right := right, top := top, bottom := bottom }

/-! ### Widgets and states (src/lib.rs lines 130-337) -/

/-- Embedding of `Widget` from src/lib.rs lines 134-252. -/
inductive Widget where
  | Button
  | Checkbox
  | RadioButton
  | ComboBox
  | ComboBoxButton
  | DateTimePicker
  | Editor
  | ListView
  | ListViewItem
  | ListViewExpandButton
  | MenuBar
  | MenuBarItem
  | PopupMenu
  | PopupMenuItem
  | MenuSeparator
  | NavigationBack
  | NavigationForward
  | NavigationMenu
  | NavigationPageDown
  | NavigationPageUp
  | ProgressBar
  | ProgressBarChunk
  | ScrollBarArrow
  | ScrollBarHandle
  | SpinnerDown
  | SpinnerUp
  | TabBody
  | TabPane
  | TabItem
  | Taskbar
  | TextBody
  | TextTitle
  | TextHyperlink
  | TextLabel
  | ToolbarButton
  | ToolbarDropdownButton
  | ToolbarSeparator
  | TooltipBalloon
  | TooltipBalloonStem
deriving DecidableEq, Repr

/-- The `WIDGETS` table from src/lib.rs lines 254-294 (all 39 widgets, in
source order). -/
def WIDGETS : List Widget :=
  [Widget.Button, Widget.Checkbox, Widget.RadioButton, Widget.ComboBox,
   Widget.ComboBoxButton, Widget.DateTimePicker, Widget.Editor,
   Widget.ListView, Widget.ListViewItem, Widget.ListViewExpandButton,
   Widget.MenuBar, Widget.MenuBarItem, Widget.PopupMenu, Widget.PopupMenuItem,
   Widget.MenuSeparator, Widget.NavigationBack, Widget.NavigationForward,
   Widget.NavigationMenu, Widget.NavigationPageDown, Widget.NavigationPageUp,
   Widget.ProgressBar, Widget.ProgressBarChunk, Widget.ScrollBarArrow,
   Widget.ScrollBarHandle, Widget.SpinnerDown, Widget.SpinnerUp,
   Widget.TabBody, Widget.TabPane, Widget.TabItem, Widget.Taskbar,
   Widget.TextBody, Widget.TextTitle, Widget.TextHyperlink, Widget.TextLabel,
   Widget.ToolbarButton, Widget.ToolbarDropdownButton, Widget.ToolbarSeparator,
   Widget.TooltipBalloon, Widget.TooltipBalloonStem]

/-- Embedding of `WidgetState` from src/lib.rs lines 300-321. -/
inductive WidgetState where
  | Disabled
  | Enabled
  | Focused
  | Selected
  | Hovered
  | Pressed
  | Checked
deriving DecidableEq, Repr, Fintype

/-- The `WIDGET_STATES` table from src/lib.rs lines 323-331. -/
def WIDGET_STATES : List WidgetState :=
  [WidgetState.Disabled, WidgetState.Enabled, WidgetState.Focused,
   WidgetState.Selected, WidgetState.Hovered, WidgetState.Pressed,
   WidgetState.Checked]

/-- Embedding of `impl Default for WidgetState` (src/lib.rs lines 333-337): `Enabled`. -/
def WidgetState.default : WidgetState := WidgetState.Enabled

/-! ### WidgetProperties (src/lib.rs lines 90-126, 420-541) -/

/-- Embedding of `WidgetProperties` from src/lib.rs lines 93-126: eleven independently
optional style fields.  `(u32, u32)` sizes are modelled as `Nat × Nat`. -/
structure WidgetProperties where
  border : Option Border
  background : Option Fill
  text : Option TextStyle
  menu_text : Option TextStyle
  text_shadow : Option Shadow
  box_shadow : Option Shadow
  margin : Option Margin
  padding : Option Margin
  default_size : Option (Nat × Nat)
  menu_bar_size : Option (Nat × Nat)
  scroll_bar_size : Option (Nat × Nat)
deriving DecidableEq, Repr

/-- Embedding of `WidgetProperties::default()` (the derived `Default`): every field
absent. -/
def WidgetProperties.default : WidgetProperties :=
  { border := none, background := none, text := none, menu_text := none
    text_shadow := none, box_shadow := none, margin := none, padding := none
    default_size := none, menu_bar_size := none, scroll_bar_size := none }

/-- Embedding of `WidgetProperties::set_border` (src/lib.rs lines 427-430). -/
def WidgetProperties.set_border (p : WidgetProperties) (border : Border) :
    WidgetProperties :=
  { p with border := some border }

/-- Embedding of `WidgetProperties::set_background` (src/lib.rs lines 438-441).  The
`impl Into<Fill> for Color` path wraps a color in `Fill::Color`. -/
def WidgetProperties.set_background (p : WidgetProperties) (background : Fill) :
    WidgetProperties :=
  { p with background := some background }

/-- Embedding of `WidgetProperties::set_text_style` (src/lib.rs lines 449-452). -/
def WidgetProperties.set_text_style (p : WidgetProperties) (textStyle : TextStyle) :
    WidgetProperties :=
  { p with text := some textStyle }

/-- Embedding of `WidgetProperties::set_margin` (src/lib.rs lines 493-496). -/
def WidgetProperties.set_margin (p : WidgetProperties) (margin : Margin) :
    WidgetProperties :=
  { p with margin := some margin }

/-- Embedding of `WidgetProperties::set_padding` (src/lib.rs lines 504-507). -/
def WidgetProperties.set_padding (p : WidgetProperties) (padding : Margin) :
    WidgetProperties :=
  { p with padding := some padding }

/-- Embedding of `WidgetProperties::set_default_size` (src/lib.rs lines 515-518). -/
def WidgetProperties.set_default_size (p : WidgetProperties) (size : Nat × Nat) :
    WidgetProperties :=
  { p with default_size := some size }

/-- Embedding of `WidgetProperties::set_menu_bar_size` (src/lib.rs lines 526-529). -/
def WidgetProperties.set_menu_bar_size (p : WidgetProperties) (size : Nat × Nat) :
    WidgetProperties :=
  { p with menu_bar_size := some size }

/-- Embedding of `WidgetProperties::set_scroll_bar_size` (src/lib.rs lines 537-540). -/
def WidgetProperties.set_scroll_bar_size (p : WidgetProperties) (size : Nat × Nat) :
    WidgetProperties :=
  { p with scroll_bar_size := some size }

/-! ### The Theme container (src/lib.rs lines 82-418)

The `HashMap<Key, WidgetProperties, PsuedoRandom>` is abstracted as an
association list with unique keys.  `mapLookup` models `HashMap::get`,
`mapInsert` models `HashMap::insert` / occupied-entry writes (replace the
value if the key is present, add the entry otherwise).  The pseudo-random
hash seeding only affects the bucket layout of the table, never which
key-value pairs it holds, so it is not part of the model. -/

/-- Embedding of `type Key = (Widget, WidgetState)` (src/lib.rs line 128). -/
abbrev Key := Widget × WidgetState

/-- The abstracted property map. -/
abbrev PropsMap := List (Key × WidgetProperties)

/-- Embedding of `HashMap::get`: the value stored under `k`, if any. -/
def mapLookup (k : Key) : PropsMap → Option WidgetProperties
  | [] => none
  | (k', v) :: rest => if k = k' then some v else mapLookup k rest

/-- Embedding of `HashMap::insert` / a write to the entry at `k`: replace the value if
the key is present, otherwise add the binding.  No other binding changes. -/
def mapInsert (k : Key) (v : WidgetProperties) : PropsMap → PropsMap
  | [] => [(k, v)]
  | (k', v') :: rest =>
    if k = k' then (k, v) :: rest else (k', v') :: mapInsert k v rest

/-- Embedding of `Theme` from src/lib.rs lines 82-88: a name plus the property map. -/
structure Theme where
  name : String
  properties : PropsMap
deriving DecidableEq, Repr

/-- Embedding of `Theme::empty` (src/lib.rs lines 367-383): store the name and insert one
`(widget, WidgetState::default())` entry with default properties for every
widget in `WIDGETS`. -/
def Theme.empty (name : String) : Theme :=
  { name := name
    properties :=
      WIDGETS.foldl
        (fun map widget =>
          mapInsert (widget, WidgetState.default) WidgetProperties.default map)
        [] }

/-- Embedding of `Theme::set_name` (src/lib.rs lines 391-393). -/
def Theme.set_name (t : Theme) (name : String) : Theme :=
  { t with name := name }

/-- Embedding of `Theme::get` (src/lib.rs lines 396-408): try the exact `(widget, state)`
key; else try `(widget, WidgetState::default())`; else `panic!`, modelled as
`none`. -/
def Theme.get (t : Theme) (widget : Widget) (state : WidgetState) :
    Option WidgetProperties :=
  match mapLookup (widget, state) t.properties with
  | some props => some props
  | none =>
    match mapLookup (widget, WidgetState.default) t.properties with
    | some props => some props
    | none => none

/-- Embedding of `Theme::get_mut` (src/lib.rs lines 413-417):
`entry((widget, state)).or_insert_with(WidgetProperties::default)`.  Returns
the properties the mutable reference points at, together with the theme
after the (possible) insertion of the default entry at the exact key. -/
def Theme.get_mut (t : Theme) (widget : Widget) (state : WidgetState) :
    WidgetProperties × Theme :=
  match mapLookup (widget, state) t.properties with
  | some props => (props, t)
  | none =>
    (WidgetProperties.default,
     { t with
        properties :=
          mapInsert (widget, state) WidgetProperties.default t.properties })

/-- Writing a value through the mutable reference `Theme::get_mut` returned:
the entry at the exact key `(widget, state)` is replaced. -/
def Theme.writeProps (t : Theme) (widget : Widget) (state : WidgetState)
    (props : WidgetProperties) : Theme :=
  { t with properties := mapInsert (widget, state) props t.properties }

/-- A complete `get_mut`-then-mutate step: obtain the reference with
`Theme.get_mut` and update the referenced properties with `f`. -/
def Theme.modifyProps (t : Theme) (widget : Widget) (state : WidgetState)
    (f : WidgetProperties → WidgetProperties) : Theme :=
  let step := t.get_mut widget state
  step.2.writeProps widget state (f step.1)

/-! ### The default theme builder (src/default_theme.rs)

The `ThemeType` trait's associated constants are `const`-evaluated, so each
palette entry that goes through `Color::mix` is an `Option Color`: `none`
models the const-evaluation failure (panic-class) of a `u16` underflow inside
`mix`.  `choose!(T, light, dark)` becomes an `if isLight` on the `IS_LIGHT`
flag of the two `ThemeType` implementors. -/

/-- Embedding of `ShadePreference` from src/lib.rs lines 1059-1065. -/
inductive ShadePreference where
  | Light
  | Dark
deriving DecidableEq, Repr

/-- The `Debug` rendering of a `ShadePreference`, as used by
`format!("Default_{:?}", shade)`. -/
def ShadePreference.debugStr : ShadePreference → String
  | ShadePreference.Light => "Light"
  | ShadePreference.Dark => "Dark"

/-- Embedding of `BLACK` (src/default_theme.rs line 38). -/
def BLACK : Color := Color.new 0 0 0 255

/-- Embedding of `WHITE` (src/default_theme.rs line 39). -/
def WHITE : Color := Color.new 255 255 255 255

/-- Embedding of `ThemeType::TEXT_COLOR` (src/default_theme.rs line 44). -/
def TEXT_COLOR (isLight : Bool) : Color :=
  if isLight then BLACK else WHITE

/-- Embedding of `ThemeType::BASE_COLOR` (src/default_theme.rs line 45). -/
def BASE_COLOR (isLight : Bool) : Color :=
  if isLight then WHITE else BLACK

/-- Embedding of `ThemeType::BG_COLOR` (src/default_theme.rs line 46). -/
def BG_COLOR (isLight : Bool) : Option Color :=
  if isLight then hexColor "#f6f5f4" else hexColor "#3d3846"

/-- Embedding of `ThemeType::FG_COLOR` (src/default_theme.rs line 47). -/
def FG_COLOR (isLight : Bool) : Option Color :=
  if isLight then hexColor "#2e3436" else hexColor "#eeeeec"

/-- Embedding of `ThemeType::SELECTED_BG_COLOR` (src/default_theme.rs lines 50-54). -/
def SELECTED_BG_COLOR (isLight : Bool) : Option Color :=
  if isLight then hexColor "#3584e4"
  else (hexColor "#3584e3").map (fun c => c.darken 20)

/-- Embedding of `ThemeType::SELECTED_BORDERS_COLOR` (src/default_theme.rs lines 55-59). -/
def SELECTED_BORDERS_COLOR (isLight : Bool) : Option Color :=
  (SELECTED_BG_COLOR isLight).map
    (fun c => if isLight then c.darken 15 else c.darken 30)

/-- Embedding of `ThemeType::BORDERS_COLOR` (src/default_theme.rs lines 61-62). -/
def BORDERS_COLOR (isLight : Bool) : Option Color :=
  (BG_COLOR isLight).map (fun c => if isLight then c.darken 18 else c.darken 10)

/-- Embedding of `ThemeType::DISABLED_FG_COLOR` (src/default_theme.rs line 83):
`FG_COLOR.mix(BG_COLOR, 50)`. -/
def DISABLED_FG_COLOR (isLight : Bool) : Option Color := do
  let fg ← FG_COLOR isLight
  let bg ← BG_COLOR isLight
  fg.mix bg 50

/-- Embedding of `ThemeType::DISABLED_BG_COLOR` (src/default_theme.rs line 84):
`BG_COLOR.mix(BASE_COLOR, 60)`. -/
def DISABLED_BG_COLOR (isLight : Bool) : Option Color := do
  let bg ← BG_COLOR isLight
  bg.mix (BASE_COLOR isLight) 60

/-- Embedding of `ThemeType::DISABLED_BORDERS_COLOR` (src/default_theme.rs line 85):
`BORDERS_COLOR.mix(BG_COLOR, 80)`. -/
def DISABLED_BORDERS_COLOR (isLight : Bool) : Option Color := do
  let borders ← BORDERS_COLOR isLight
  let bg ← BG_COLOR isLight
  borders.mix bg 80

/-- The body of the inner loop of `default_theme_inner`
(src/default_theme.rs lines 102-154) for one `(widget, state)` cell, applied
to the properties `theme.get_mut(widget, state)` handed out: background,
text style, conditional border, margin and padding, default size and bar
sizes.  A `none` is a palette constant whose const evaluation panics. -/
def defaultThemeCell (isLight : Bool) (widget : Widget) (state : WidgetState)
    (props : WidgetProperties) : Option WidgetProperties := do
  -- Set the background color.
  let bgColor ←
    match state with
    | WidgetState.Disabled => DISABLED_BG_COLOR isLight
    | _ => BG_COLOR isLight
  let props := props.set_background (Fill.color bgColor)

  -- Set the foreground text color.
  let fgColor ←
    match state with
    | WidgetState.Disabled => DISABLED_FG_COLOR isLight
    | _ => FG_COLOR isLight
  let textStyle :=
    (((TextStyle.new 12 FontFamily.SansSerif).set_color fgColor).set_halignment
        TextAlignment.Center).set_valignment TextAlignment.Center
  let props := props.set_text_style textStyle

  -- Figure out if we need to set a border.
  let borderColor ←
    match state with
    | WidgetState.Disabled => DISABLED_BORDERS_COLOR isLight
    | WidgetState.Selected => SELECTED_BORDERS_COLOR isLight
    | _ => BORDERS_COLOR isLight
  let borderData : Option (Rat × Color) :=
    match widget with
    | Widget.Button => some (1, borderColor)
    | _ => none
  let props :=
    match borderData with
    | some (radius, color) => props.set_border ((Border.new 2 color).set_radius radius)
    | none => props

  let margin := Margin.new 2 2 2 2
  let props := (props.set_margin margin).set_padding margin

  -- Set default sizes.
  let height : Nat := if borderData.isSome then 24 else 20
  let props := props.set_default_size (height, height)

  let props := (props.set_menu_bar_size (16, 8)).set_scroll_bar_size (8, 16)
  some props

/-- One iteration of the inner loop of `default_theme_inner`: run the cell
body on `theme.get_mut(widget, state)` and store the result back through the
mutable reference. -/
def cellStep (isLight : Bool) (widget : Widget) (theme : Theme)
    (state : WidgetState) : Option Theme := do
  let step := theme.get_mut widget state
  let props ← defaultThemeCell isLight widget state step.1
  some (step.2.writeProps widget state props)

/-- The inner `for state in WIDGET_STATES` loop of `default_theme_inner`
for one widget. -/
def widgetRow (isLight : Bool) (theme : Theme) (widget : Widget) : Option Theme :=
  WIDGET_STATES.foldlM (cellStep isLight widget) theme

/-- Embedding of `default_theme_inner` (src/default_theme.rs lines 99-157):
the outer `for widget in WIDGETS` loop over the per-widget inner loop. -/
def defaultThemeInner (isLight : Bool) (theme : Theme) : Option Theme :=
  WIDGETS.foldlM (widgetRow isLight) theme

/-- Embedding of `default_theme` (src/default_theme.rs lines 159-166): start from
`Theme::empty(format!("Default_{:?}", shade))` and run the inner builder for
the chosen shade. -/
def default_theme (shade : ShadePreference) : Option Theme :=
  let theme := Theme.empty ("Default_" ++ shade.debugStr)
  match shade with
  | ShadePreference.Light => defaultThemeInner true theme
  | ShadePreference.Dark => defaultThemeInner false theme

/-! ### Auxiliary notions used by the claims -/

/-- ASCII upper-casing of one byte, used to state case-insensitivity of the
hex digits (`a`-`z` map to `A`-`Z`, everything else is unchanged). -/
def toUpperByte (byte : Nat) : Nat :=
  if 97 ≤ byte ∧ byte ≤ 122 then byte - 32 else byte

/-- The construction invariant of `Theme` (spec section 3): every known
widget has an entry at the default state `Enabled`. -/
abbrev ThemeInvariant (t : Theme) : Prop :=
  ∀ w ∈ WIDGETS, (mapLookup (w, WidgetState.Enabled) t.properties).isSome = true

/-- An element of the public mutating/reading surface of `Theme`: a `get`
call (reads only), a `get_mut` call followed by a mutation `f` of the entry
it hands out, or a `set_name` call.  There is no deletion operation. -/
inductive ThemeOp where
  | getOp (widget : Widget) (state : WidgetState) : ThemeOp
  | getMutThen (widget : Widget) (state : WidgetState)
      (f : WidgetProperties → WidgetProperties) : ThemeOp
  | setNameOp (name : String) : ThemeOp

/-- The effect of one `ThemeOp` on a theme.  `get` takes `&self` and cannot
change the theme; `get_mut` plus a mutation is `Theme.modifyProps`;
`set_name` is `Theme.set_name`. -/
def applyOp (t : Theme) : ThemeOp → Theme
  | ThemeOp.getOp _ _ => t
  | ThemeOp.getMutThen w s f => t.modifyProps w s f
  | ThemeOp.setNameOp n => t.set_name n

/-- The theme after a sequence of operations. -/
def applyOps (t : Theme) (ops : List ThemeOp) : Theme :=
  ops.foldl applyOp t

/-! ### The Light palette, evaluated

Derived definitions used by the proofs about the `Light` run of the builder:
the palette constants of the `Light` `ThemeType` all const-evaluate
successfully, to the concrete colors recorded here (each equation is proved
against the embedded palette below). -/

/-- The background color the Light builder picks per state
(`DISABLED_BG_COLOR` for `Disabled`, `BG_COLOR` otherwise), evaluated. -/
def lightBgColor : WidgetState → Color
  | WidgetState.Disabled => Color.new 251 251 250 255
  | _ => Color.new 246 245 244 255

/-- The text color the Light builder picks per state (`DISABLED_FG_COLOR`
for `Disabled`, `FG_COLOR` otherwise), evaluated. -/
def lightFgColor : WidgetState → Color
  | WidgetState.Disabled => Color.new 146 148 149 255
  | _ => Color.new 46 52 54 255

/-- The border color the Light builder picks per state
(`DISABLED_BORDERS_COLOR` / `SELECTED_BORDERS_COLOR` / `BORDERS_COLOR`),
evaluated. -/
def lightBorderColor : WidgetState → Color
  | WidgetState.Disabled => Color.new 205 204 203 255
  | WidgetState.Selected => Color.new 7 19 34 255
  | _ => Color.new 44 44 43 255

/-- The value one cell of the Light builder stores for `(w, s)` when the
properties it received from `get_mut` were `p`: background and text style
from the evaluated palette, a border exactly for `Button` (radius 1,
thickness 2), uniform margin and padding, the default size 24 with a border
and 20 without, and the fixed bar sizes.  Fields the cell does not set keep
their value from `p`. -/
def lightCellProps (w : Widget) (s : WidgetState) (p : WidgetProperties) :
    WidgetProperties :=
  { p with
    background := some (Fill.color (lightBgColor s))
    text :=
      some ((((TextStyle.new 12 FontFamily.SansSerif).set_color
            (lightFgColor s)).set_halignment
          TextAlignment.Center).set_valignment TextAlignment.Center)
    border :=
      if w = Widget.Button then
        some ((Border.new 2 (lightBorderColor s)).set_radius 1)
      else p.border
    margin := some (Margin.new 2 2 2 2)
    padding := some (Margin.new 2 2 2 2)
    default_size := some (if w = Widget.Button then (24, 24) else (20, 20))
    menu_bar_size := some (16, 8)
    scroll_bar_size := some (8, 16) }

/-! ### Shared lemmas about the abstracted map -/

/-- Looking up the key just inserted yields the inserted value. -/
theorem mapLookup_mapInsert_self (k : Key) (v : WidgetProperties) (m : PropsMap) :
    mapLookup k (mapInsert k v m) = some v := by
  induction m with
  | nil => simp [mapInsert, mapLookup]
  | cons hd tl ih =>
    rcases hd with ⟨k', v'⟩
    by_cases h : k = k'
    · subst h
      simp [mapInsert, mapLookup]
    · simp [mapInsert, mapLookup, h, ih]

/-- Inserting at a different key does not change a lookup. -/
theorem mapLookup_mapInsert_ne {k k' : Key} (h : k ≠ k') (v : WidgetProperties)
    (m : PropsMap) : mapLookup k (mapInsert k' v m) = mapLookup k m := by
  induction m with
  | nil => simp [mapInsert, mapLookup, h]
  | cons hd tl ih =>
    rcases hd with ⟨k'', v''⟩
    by_cases h1 : k' = k''
    · subst h1
      simp [mapInsert, mapLookup, h]
    · by_cases h2 : k = k''
      · subst h2
        simp [mapInsert, mapLookup, h1, Ne.symm h1]
      · simp [mapInsert, mapLookup, h1, h2, ih]

/-- An insertion never removes a present key. -/
theorem mapLookup_mapInsert_isSome {k : Key} {m : PropsMap}
    (h : (mapLookup k m).isSome = true) (k' : Key) (v : WidgetProperties) :
    (mapLookup k (mapInsert k' v m)).isSome = true := by
  by_cases hk : k = k'
  · subst hk
    simp [mapLookup_mapInsert_self]
  · rwa [mapLookup_mapInsert_ne hk]

/-- A `get_mut`-then-mutate step never removes a present key. -/
theorem modifyProps_preserves_isSome {k : Key} {t : Theme}
    (h : (mapLookup k t.properties).isSome = true) (w : Widget)
    (s : WidgetState) (f : WidgetProperties → WidgetProperties) :
    (mapLookup k (t.modifyProps w s f).properties).isSome = true := by
  unfold Theme.modifyProps Theme.get_mut Theme.writeProps
  cases hl : mapLookup (w, s) t.properties with
  | some p => simpa using mapLookup_mapInsert_isSome h _ _
  | none =>
    simp only
    exact mapLookup_mapInsert_isSome (mapLookup_mapInsert_isSome h _ _) _ _

/-- One operation of the public surface never removes a present key. -/
theorem applyOp_preserves_isSome {k : Key} {t : Theme}
    (h : (mapLookup k t.properties).isSome = true) (op : ThemeOp) :
    (mapLookup k (applyOp t op).properties).isSome = true := by
  cases op with
  | getOp w s => exact h
  | getMutThen w s f => exact modifyProps_preserves_isSome h w s f
  | setNameOp n => exact h

/-- A sequence of operations of the public surface never removes a present
key. -/
theorem applyOps_preserves_isSome {k : Key} {t : Theme} (ops : List ThemeOp)
    (h : (mapLookup k t.properties).isSome = true) :
    (mapLookup k (applyOps t ops).properties).isSome = true := by
  induction ops generalizing t with
  | nil => exact h
  | cons op rest ih =>
    exact ih (t := applyOp t op) (applyOp_preserves_isSome h op)

/-- On a theme satisfying the construction invariant, `get` is total for
every known widget and every state. -/
theorem get_isSome_of_invariant {t : Theme} (h : ThemeInvariant t) {w : Widget}
    (hw : w ∈ WIDGETS) (s : WidgetState) : (t.get w s).isSome = true := by
  unfold Theme.get
  cases h1 : mapLookup (w, s) t.properties with
  | some p => simp
  | none =>
    have h2 := h w hw
    cases h3 : mapLookup (w, WidgetState.Enabled) t.properties with
    | some p => simp [WidgetState.default, h3]
    | none => rw [h3] at h2; simp at h2

/-! ### The claims -/

/-- C1: `Theme::get(widget, state)` follows the exact fallback order: the
value under the exact key `(widget, state)` when that key is present,
otherwise the value under `(widget, Enabled)` when that key is present,
otherwise the panic branch (modelled `none`); and whatever it returns is one
of those two entries.  `get` takes `&self` and, in this embedding, is a pure
function of the theme, so it cannot mutate it. -/
theorem get_follows_fallback_order (t : Theme) (w : Widget) (s : WidgetState) :
    (∀ p, mapLookup (w, s) t.properties = some p → t.get w s = some p) ∧
    (mapLookup (w, s) t.properties = none →
      ∀ p, mapLookup (w, WidgetState.Enabled) t.properties = some p →
        t.get w s = some p) ∧
    (mapLookup (w, s) t.properties = none →
      mapLookup (w, WidgetState.Enabled) t.properties = none →
      t.get w s = none) ∧
    (∀ p, t.get w s = some p →
      mapLookup (w, s) t.properties = some p ∨
        mapLookup (w, WidgetState.Enabled) t.properties = some p) := by
  unfold Theme.get
  refine ⟨fun p hp => ?_, fun h1 p hp => ?_, fun h1 h2 => ?_, fun p hp => ?_⟩
  · rw [hp]
  · rw [h1]
    simp [WidgetState.default, hp]
  · rw [h1]
    simp [WidgetState.default, h2]
  · cases h1 : mapLookup (w, s) t.properties with
    | some q =>
      have hqp : q = p := by
        rw [h1] at hp
        exact Option.some.inj hp
      exact Or.inl (congrArg some hqp)
    | none =>
      rw [h1] at hp
      cases h2 : mapLookup (w, WidgetState.Enabled) t.properties with
      | some q =>
        have hqp : q = p := by
          simp only [WidgetState.default] at hp
          rw [h2] at hp
          exact Option.some.inj hp
        exact Or.inr (congrArg some hqp)
      | none =>
        exfalso
        simp only [WidgetState.default] at hp
        rw [h2] at hp
        exact Option.noConfusion hp

/-- C1 witness: on a freshly emptied theme, `(Button, Hovered)` is not an
exact key, `(Button, Enabled)` is, and `get` returns its (default) value. -/
theorem get_follows_fallback_order_witness :
    (Theme.empty "a").get Widget.Button WidgetState.Hovered =
      some WidgetProperties.default :=
  (get_follows_fallback_order (Theme.empty "a") Widget.Button
        WidgetState.Hovered).2.1
    (by decide) WidgetProperties.default (by decide)

/-- C2: on `Theme::empty(name)`, for every known widget `w` and every state
`s`, `get(w, s)` does not hit the panic branch, and `get(w, Enabled)` is the
default all-fields-absent properties.  The property map of `Theme::empty`
does not depend on the name, so the statement reduces to a finite check. -/
theorem empty_get_total (name : String) (w : Widget) (s : WidgetState)
    (hw : w ∈ WIDGETS) :
    ((Theme.empty name).get w s).isSome = true ∧
    (Theme.empty name).get w WidgetState.Enabled =
      some WidgetProperties.default := by
  have h : ∀ w ∈ WIDGETS, ∀ s : WidgetState,
      ((Theme.empty "").get w s).isSome = true ∧
      (Theme.empty "").get w WidgetState.Enabled =
        some WidgetProperties.default := by decide
  exact h w hw s

/-- C2 witness at a concrete widget, state and name. -/
theorem empty_get_total_witness :
    ((Theme.empty "mytheme").get Widget.TooltipBalloonStem
          WidgetState.Disabled).isSome = true ∧
    (Theme.empty "mytheme").get Widget.TooltipBalloonStem WidgetState.Enabled =
      some WidgetProperties.default :=
  empty_get_total "mytheme" Widget.TooltipBalloonStem WidgetState.Disabled
    (by decide)

/-- C3: `Theme::get_mut(w, s)` materializes the exact key: when
`(w, s)` is absent it inserts the default properties at exactly that key
(never consulting `(w, Enabled)`), when present it hands out that entry and
changes nothing; and a mutation `f` applied through the handle is what a
subsequent `get(w, s)` returns, via an exact-key hit with no fallback. -/
theorem get_mut_exact_key (t : Theme) (w : Widget) (s : WidgetState)
    (f : WidgetProperties → WidgetProperties) :
    (mapLookup (w, s) t.properties = none →
      t.get_mut w s =
        (WidgetProperties.default,
          { t with
             properties :=
               mapInsert (w, s) WidgetProperties.default t.properties })) ∧
    (∀ p, mapLookup (w, s) t.properties = some p → t.get_mut w s = (p, t)) ∧
    mapLookup (w, s) (t.modifyProps w s f).properties =
      some (f ((mapLookup (w, s) t.properties).getD WidgetProperties.default)) ∧
    (t.modifyProps w s f).get w s =
      some (f ((mapLookup (w, s) t.properties).getD WidgetProperties.default)) := by
  have hexact : mapLookup (w, s) (t.modifyProps w s f).properties =
      some (f ((mapLookup (w, s) t.properties).getD WidgetProperties.default)) := by
    unfold Theme.modifyProps Theme.get_mut Theme.writeProps
    cases hl : mapLookup (w, s) t.properties with
    | some p => simp [mapLookup_mapInsert_self]
    | none => simp [mapLookup_mapInsert_self]
  refine ⟨fun h => ?_, fun p hp => ?_, hexact, ?_⟩
  · unfold Theme.get_mut
    rw [h]
  · unfold Theme.get_mut
    rw [hp]
  · unfold Theme.get
    rw [hexact]

/-- C3 witness: mutating `(Checkbox, Pressed)` on an empty theme through
`get_mut` and reading it back with `get` yields exactly the mutated value. -/
theorem get_mut_exact_key_witness :
    ((Theme.empty "a").modifyProps Widget.Checkbox WidgetState.Pressed
          (fun p => p.set_default_size (5, 5))).get Widget.Checkbox
        WidgetState.Pressed =
      some (WidgetProperties.default.set_default_size (5, 5)) :=
  (get_mut_exact_key (Theme.empty "a") Widget.Checkbox WidgetState.Pressed
      (fun p => p.set_default_size (5, 5))).2.2.2

/-- C10: the construction invariant — `(w, Enabled)` present for every known
widget — is preserved by every sequence of `get`, `get_mut`-plus-mutation
and `set_name` calls; no call of the public surface ever removes a map
entry; and on any theme satisfying the invariant, `get` stays total for
every known widget and every state after any such sequence. -/
theorem invariant_preserved_by_ops (t : Theme) (ops : List ThemeOp)
    (h : ThemeInvariant t) :
    ThemeInvariant (applyOps t ops) ∧
    (∀ k : Key, (mapLookup k t.properties).isSome = true →
      (mapLookup k (applyOps t ops).properties).isSome = true) ∧
    (∀ w ∈ WIDGETS, ∀ s : WidgetState,
      ((applyOps t ops).get w s).isSome = true) := by
  have hinv : ThemeInvariant (applyOps t ops) :=
    fun w hw => applyOps_preserves_isSome ops (h w hw)
  exact ⟨hinv, fun k hk => applyOps_preserves_isSome ops hk,
    fun w hw s => get_isSome_of_invariant hinv hw s⟩

/-- C10 witness: after renaming, a `get_mut` mutation and a `get` on a fresh
empty theme, `get` still succeeds on an untouched widget/state pair. -/
theorem invariant_preserved_by_ops_witness :
    ((applyOps (Theme.empty "a")
          [ThemeOp.setNameOp "b",
           ThemeOp.getMutThen Widget.Button WidgetState.Hovered
             (fun p => p.set_border (Border.new 2 BLACK)),
           ThemeOp.getOp Widget.Checkbox WidgetState.Pressed]).get
        Widget.TextLabel WidgetState.Checked).isSome = true :=
  (invariant_preserved_by_ops (Theme.empty "a")
        [ThemeOp.setNameOp "b",
         ThemeOp.getMutThen Widget.Button WidgetState.Hovered
           (fun p => p.set_border (Border.new 2 BLACK)),
         ThemeOp.getOp Widget.Checkbox WidgetState.Pressed]
        (by decide)).2.2
    Widget.TextLabel (by decide) WidgetState.Checked

/-- C4 counterexample: `darken` does not scale the alpha channel, so
`darken(Color(100,100,100,255), 50)` is `Color(50,50,50,255)`, not the
`Color(50,50,50,127)` the claim states. -/
theorem darken_alpha_counterexample :
    Color.darken (Color.new 100 100 100 255) 50 ≠ Color.new 50 50 50 127 := by
  decide

/-- C4 amended: `darken(c, p)` scales the `r`, `g`, `b` channels by `p/100`
with truncating integer arithmetic in 16-bit-or-wider intermediates
(`((channel as u16 * p as u16) / 100) as u8`) and passes the alpha channel
through unchanged; in particular
`darken(Color(100,100,100,255), 50) = Color(50,50,50,255)`. -/
theorem darken_truncating_rgb_only :
    (∀ r g b a percent : Nat,
      Color.darken (Color.new r g b a) percent =
        Color.new (r * percent / 100 % 256) (g * percent / 100 % 256)
          (b * percent / 100 % 256) a) ∧
    Color.darken (Color.new 100 100 100 255) 50 = Color.new 50 50 50 255 := by
  exact ⟨fun r g b a percent => rfl, by decide⟩

/-- C5: the claim `mix(a, b, 0) = a` and `mix(a, b, 100) = b` fails on the
code: the per-channel subtraction `o - e` is performed in *unsigned* 16-bit
arithmetic, which underflows whenever a channel of `b` is below the
corresponding channel of `a` — a panic-class failure (a const-evaluation
error at the crate's own call sites).  At `a = white`, `b = black` both
endpoint identities fail, and the crate's own dark palette constant
`DISABLED_FG_COLOR = FG_COLOR.mix(BG_COLOR, 50)` hits the same underflow. -/
theorem mix_underflows_at_endpoints :
    Color.mix (Color.new 255 255 255 255) (Color.new 0 0 0 255) 0 = none ∧
    Color.mix (Color.new 255 255 255 255) (Color.new 0 0 0 255) 100 = none ∧
    DISABLED_FG_COLOR false = none := by
  refine ⟨by decide, by decide, by decide⟩

/-- The value of a parsed hex digit is below 16. -/
theorem hexDigitVal_lt {b v : Nat} (h : hexDigitVal b = some v) : v < 16 := by
  simp only [hexDigitVal] at h
  split_ifs at h <;> simp_all <;> omega

/-- Running `const_parse_hex` on two valid hex digit bytes yields the
big-endian two-digit value; the `u8` accumulator bound 255 is never hit. -/
theorem constParseHex_pair {b1 b2 v1 v2 : Nat} (h1 : hexDigitVal b1 = some v1)
    (h2 : hexDigitVal b2 = some v2) :
    constParseHex [b1, b2] = some (16 * v1 + v2) := by
  have l1 := hexDigitVal_lt h1
  have l2 := hexDigitVal_lt h2
  simp only [constParseHex, List.foldlM, h1, h2, Option.bind_eq_bind,
    Option.some_bind, Option.bind]
  rw [if_pos (show 0 * 16 + v1 < 256 by omega)]
  simp only [Option.bind]
  rw [if_pos (show (0 * 16 + v1) * 16 + v2 < 256 by omega)]
  simp only [Option.bind]
  congr 1
  omega

/-- ASCII upper-casing does not change the value of a valid hex digit
byte. -/
theorem hexDigitVal_toUpperByte {b v : Nat} (h : hexDigitVal b = some v) :
    hexDigitVal (toUpperByte b) = some v := by
  by_cases hb : 97 ≤ b ∧ b ≤ 122
  · simp only [toUpperByte, if_pos hb]
    simp only [hexDigitVal] at h ⊢
    split_ifs at h ⊢ <;> simp_all <;> omega
  · simp only [toUpperByte, if_neg hb]
    exact h

/-- C6: on a 7-byte input made of a `#` byte followed by six hex digit
bytes, `Color::hex` parses big-endian — the first digit pair is red, the
second green, the third blue — with alpha fixed at 255, and upper-casing the
input parses to the same color. -/
theorem hex_bigendian_case_insensitive
    (b1 b2 b3 b4 b5 b6 v1 v2 v3 v4 v5 v6 : Nat)
    (h1 : hexDigitVal b1 = some v1) (h2 : hexDigitVal b2 = some v2)
    (h3 : hexDigitVal b3 = some v3) (h4 : hexDigitVal b4 = some v4)
    (h5 : hexDigitVal b5 = some v5) (h6 : hexDigitVal b6 = some v6) :
    Color.hex [35, b1, b2, b3, b4, b5, b6] =
      some (Color.new (16 * v1 + v2) (16 * v3 + v4) (16 * v5 + v6) 255) ∧
    Color.hex (List.map toUpperByte [35, b1, b2, b3, b4, b5, b6]) =
      Color.hex [35, b1, b2, b3, b4, b5, b6] := by
  have main : ∀ a1 a2 a3 a4 a5 a6 : Nat, hexDigitVal a1 = some v1 →
      hexDigitVal a2 = some v2 → hexDigitVal a3 = some v3 →
      hexDigitVal a4 = some v4 → hexDigitVal a5 = some v5 →
      hexDigitVal a6 = some v6 →
      Color.hex [35, a1, a2, a3, a4, a5, a6] =
        some (Color.new (16 * v1 + v2) (16 * v3 + v4) (16 * v5 + v6) 255) := by
    intro a1 a2 a3 a4 a5 a6 g1 g2 g3 g4 g5 g6
    simp [Color.hex, constParseHex_pair g1 g2, constParseHex_pair g3 g4,
      constParseHex_pair g5 g6]
  have h35 : toUpperByte 35 = 35 := by decide
  refine ⟨main b1 b2 b3 b4 b5 b6 h1 h2 h3 h4 h5 h6, ?_⟩
  rw [List.map_cons, List.map_cons, List.map_cons, List.map_cons,
    List.map_cons, List.map_cons, List.map_cons, List.map_nil, h35]
  rw [main _ _ _ _ _ _ (hexDigitVal_toUpperByte h1) (hexDigitVal_toUpperByte h2)
    (hexDigitVal_toUpperByte h3) (hexDigitVal_toUpperByte h4)
    (hexDigitVal_toUpperByte h5) (hexDigitVal_toUpperByte h6)]
  rw [main b1 b2 b3 b4 b5 b6 h1 h2 h3 h4 h5 h6]

/-- C6 witness, on the Rust string literals the claim names. -/
theorem hex_bigendian_case_insensitive_witness :
    hexColor "#ff0000" = some (Color.new 255 0 0 255) ∧
    hexColor "#FF0000" = hexColor "#ff0000" ∧
    hexColor "#000000" = some (Color.new 0 0 0 255) :=
  ⟨(hex_bigendian_case_insensitive 102 102 48 48 48 48 15 15 0 0 0 0
      (by decide) (by decide) (by decide) (by decide) (by decide)
      (by decide)).1,
   (hex_bigendian_case_insensitive 102 102 48 48 48 48 15 15 0 0 0 0
      (by decide) (by decide) (by decide) (by decide) (by decide)
      (by decide)).2,
   (hex_bigendian_case_insensitive 48 48 48 48 48 48 0 0 0 0 0 0
      (by decide) (by decide) (by decide) (by decide) (by decide)
      (by decide)).1⟩

/-- C7: in this pure embedding `default_theme` is a function of the shade
alone — two invocations with the same shade are literally the same value, so
determinism and freedom from side effects hold by construction.  The claim
that each shade yields a Theme value fails for `Dark`: deriving the dark
palette hits the unsigned-subtraction underflow inside `Color::mix`
(`DISABLED_BG_COLOR = BG_COLOR.mix(BASE_COLOR, 60)` with a black base), so
`default_theme(Dark)` fails instead of producing a Theme, while
`default_theme(Light)` produces one. -/
theorem default_theme_light_some_dark_none :
    default_theme ShadePreference.Dark = none ∧
    (default_theme ShadePreference.Light).isSome = true ∧
    DISABLED_BG_COLOR false = none := by
  refine ⟨by decide, by decide, by decide⟩

/-- One cell of the Light builder succeeds and stores exactly
`lightCellProps`: the Light palette constants all evaluate (checked by
`decide`), so the cell's three color lookups are `some`, and the chain of
setters produces the record `lightCellProps` describes. -/
theorem cell_light (w : Widget) (s : WidgetState) (p : WidgetProperties) :
    defaultThemeCell true w s p = some (lightCellProps w s p) := by
  have hmatchPair : ∀ c : Color,
      (match w with
       | Widget.Button => some ((1 : Rat), c)
       | _ => none) =
        if w = Widget.Button then some ((1 : Rat), c) else none := by
    intro c; cases w <;> simp
  have hbg : BG_COLOR true = some (Color.new 246 245 244 255) := by decide
  have hdbg : DISABLED_BG_COLOR true = some (Color.new 251 251 250 255) := by
    decide
  have hfg : FG_COLOR true = some (Color.new 46 52 54 255) := by decide
  have hdfg : DISABLED_FG_COLOR true = some (Color.new 146 148 149 255) := by
    decide
  have hbo : BORDERS_COLOR true = some (Color.new 44 44 43 255) := by decide
  have hdbo : DISABLED_BORDERS_COLOR true = some (Color.new 205 204 203 255) := by
    decide
  have hsbo : SELECTED_BORDERS_COLOR true = some (Color.new 7 19 34 255) := by
    decide
  by_cases hw : w = Widget.Button <;>
    cases s <;>
      simp only [defaultThemeCell, lightCellProps, lightBgColor, lightFgColor,
        lightBorderColor, hbg, hdbg, hfg, hdfg, hbo, hdbo, hsbo, hmatchPair,
        hw, Option.some_bind, if_true, if_false, reduceIte] <;>
      simp [hw, WidgetProperties.set_background, WidgetProperties.set_text_style,
        WidgetProperties.set_border, WidgetProperties.set_margin,
        WidgetProperties.set_padding, WidgetProperties.set_default_size,
        WidgetProperties.set_menu_bar_size, WidgetProperties.set_scroll_bar_size]

/-- One inner-loop iteration of the Light builder: it succeeds, writes
`lightCellProps` of the previous entry (or of the default, if the key was
absent) at the exact key, and leaves every other key unchanged. -/
theorem cellStep_light (w : Widget) (s : WidgetState) (t : Theme) :
    ∃ t1, cellStep true w t s = some t1 ∧
      mapLookup (w, s) t1.properties =
        some (lightCellProps w s
          ((mapLookup (w, s) t.properties).getD WidgetProperties.default)) ∧
      (∀ k : Key, k ≠ (w, s) →
        mapLookup k t1.properties = mapLookup k t.properties) := by
  cases hl : mapLookup (w, s) t.properties with
  | some p =>
    refine ⟨t.writeProps w s (lightCellProps w s p), ?_, ?_, ?_⟩
    · simp [cellStep, Theme.get_mut, hl, cell_light]
    · simp [Theme.writeProps, mapLookup_mapInsert_self, hl]
    · intro k hk
      simp [Theme.writeProps, mapLookup_mapInsert_ne hk]
  | none =>
    refine ⟨{ t with
        properties :=
          mapInsert (w, s) (lightCellProps w s WidgetProperties.default)
            (mapInsert (w, s) WidgetProperties.default t.properties) }, ?_, ?_, ?_⟩
    · simp [cellStep, Theme.get_mut, hl, cell_light, Theme.writeProps]
    · simp [mapLookup_mapInsert_self, hl]
    · intro k hk
      simp [mapLookup_mapInsert_ne hk]

/-- The inner `for state` loop of the Light builder over a duplicate-free
state list: it succeeds, stores `lightCellProps` of the original entry at
`(w, s)` for every processed state `s`, and leaves all other keys
unchanged. -/
theorem rowFold_light (w : Widget) :
    ∀ (states : List WidgetState), states.Nodup → ∀ t : Theme,
      ∃ t', List.foldlM (cellStep true w) t states = some t' ∧
        (∀ k : Key, (∀ s ∈ states, k ≠ (w, s)) →
          mapLookup k t'.properties = mapLookup k t.properties) ∧
        (∀ s ∈ states,
          mapLookup (w, s) t'.properties =
            some (lightCellProps w s
              ((mapLookup (w, s) t.properties).getD WidgetProperties.default))) := by
  intro states
  induction states with
  | nil =>
    intro _ t
    exact ⟨t, rfl, fun k _ => rfl, fun s hs => absurd hs (List.not_mem_nil s)⟩
  | cons s1 rest ih =>
    intro hnd t
    obtain ⟨hs1, hndrest⟩ := List.nodup_cons.mp hnd
    obtain ⟨t1, ht1, ht1self, ht1other⟩ := cellStep_light w s1 t
    obtain ⟨t', ht', hA, hB⟩ := ih hndrest t1
    refine ⟨t', ?_, ?_, ?_⟩
    · rw [List.foldlM_cons, ht1]
      simpa using ht'
    · intro k hk
      rw [hA k (fun s hs => hk s (List.mem_cons_of_mem _ hs)),
        ht1other k (hk s1 (List.mem_cons_self s1 rest))]
    · intro s hs
      rcases List.mem_cons.mp hs with rfl | hsrest
      · have huntouched : ∀ s' ∈ rest, (w, s) ≠ (w, s') := by
          intro s' hs' heq
          have h2 : s = s' := congrArg Prod.snd heq
          cases h2
          exact hs1 hs'
        rw [hA (w, s) huntouched, ht1self]
      · have hne : (w, s) ≠ (w, s1) := by
          intro heq
          have h2 : s = s1 := congrArg Prod.snd heq
          exact hs1 (h2 ▸ hsrest)
        rw [hB s hsrest, ht1other (w, s) hne]

/-- The outer `for widget` loop of the Light builder over a duplicate-free
widget list: it succeeds, stores `lightCellProps` of the original entry at
every `(w, s)` of the processed cross-product, and leaves every key outside
it unchanged. -/
theorem themeFold_light :
    ∀ (widgets : List Widget), widgets.Nodup → ∀ t : Theme,
      ∃ t', List.foldlM (widgetRow true) t widgets = some t' ∧
        (∀ k : Key, k.1 ∉ widgets ∨ k.2 ∉ WIDGET_STATES →
          mapLookup k t'.properties = mapLookup k t.properties) ∧
        (∀ w ∈ widgets, ∀ s ∈ WIDGET_STATES,
          mapLookup (w, s) t'.properties =
            some (lightCellProps w s
              ((mapLookup (w, s) t.properties).getD WidgetProperties.default))) := by
  have hndstates : WIDGET_STATES.Nodup := by decide
  intro widgets
  induction widgets with
  | nil =>
    intro _ t
    exact ⟨t, rfl, fun k _ => rfl, fun w hw => absurd hw (List.not_mem_nil w)⟩
  | cons w1 rest ih =>
    intro hnd t
    obtain ⟨hw1, hndrest⟩ := List.nodup_cons.mp hnd
    obtain ⟨t1, ht1, hA1, hB1⟩ := rowFold_light w1 WIDGET_STATES hndstates t
    obtain ⟨t', ht', hA, hB⟩ := ih hndrest t1
    have hrow : widgetRow true t w1 = some t1 := ht1
    refine ⟨t', ?_, ?_, ?_⟩
    · rw [List.foldlM_cons, hrow]
      simpa using ht'
    · intro k hk
      have hk1 : ∀ s ∈ WIDGET_STATES, k ≠ (w1, s) := by
        intro s hs heq
        rcases hk with hk | hk
        · exact hk (heq ▸ List.mem_cons_self w1 rest)
        · exact hk (heq ▸ hs)
      have hkrest : k.1 ∉ rest ∨ k.2 ∉ WIDGET_STATES := by
        rcases hk with hk | hk
        · exact Or.inl (fun h => hk (List.mem_cons_of_mem _ h))
        · exact Or.inr hk
      rw [hA k hkrest, hA1 k hk1]
    · intro w hw s hs
      rcases List.mem_cons.mp hw with rfl | hwrest
      · have huntouched : mapLookup (w, s) t'.properties =
            mapLookup (w, s) t1.properties :=
          hA (w, s) (Or.inl hw1)
        rw [huntouched, hB1 s hs]
      · have hne : ∀ s' ∈ WIDGET_STATES, (w, s) ≠ (w1, s') := by
          intro s' _ heq
          have h2 : w = w1 := congrArg Prod.fst heq
          exact hw1 (h2 ▸ hwrest)
        rw [hB w hwrest s hs, hA1 (w, s) hne]

/-- Lookups in the map `Theme::empty` builds by folding insertions of
default properties at `(widget, Enabled)` over a widget list. -/
theorem emptyFold_lookup :
    ∀ (l : List Widget) (m : PropsMap) (kw : Widget) (ks : WidgetState),
      mapLookup (kw, ks)
        (l.foldl
          (fun map widget =>
            mapInsert (widget, WidgetState.default) WidgetProperties.default map)
          m) =
        if kw ∈ l ∧ ks = WidgetState.default then some WidgetProperties.default
        else mapLookup (kw, ks) m := by
  intro l
  induction l with
  | nil =>
    intro m kw ks
    simp
  | cons w1 rest ih =>
    intro m kw ks
    rw [List.foldl_cons, ih]
    by_cases h1 : kw ∈ rest ∧ ks = WidgetState.default
    · rw [if_pos h1, if_pos ⟨List.mem_cons_of_mem _ h1.1, h1.2⟩]
    · rw [if_neg h1]
      by_cases h2 : (kw, ks) = (w1, WidgetState.default)
      · have hkw : kw = w1 := congrArg Prod.fst h2
        have hks : ks = WidgetState.default := congrArg Prod.snd h2
        rw [h2, mapLookup_mapInsert_self,
          if_pos ⟨hkw ▸ List.mem_cons_self w1 rest, hks⟩]
      · rw [mapLookup_mapInsert_ne h2]
        have : ¬(kw ∈ w1 :: rest ∧ ks = WidgetState.default) := by
          rintro ⟨hmem, hks⟩
          rcases List.mem_cons.mp hmem with rfl | hmem2
          · exact h2 (by rw [hks])
          · exact h1 ⟨hmem2, hks⟩
        rw [if_neg this]

/-- A lookup in a fresh empty theme: the default properties at
`(w, Enabled)` for known widgets, nothing anywhere else. -/
theorem empty_lookup (name : String) (kw : Widget) (ks : WidgetState) :
    mapLookup (kw, ks) (Theme.empty name).properties =
      if kw ∈ WIDGETS ∧ ks = WidgetState.default then some WidgetProperties.default
      else none := by
  have h := emptyFold_lookup WIDGETS [] kw ks
  simp only [mapLookup] at h
  exact h

/-- Every entry a fresh empty theme can deliver is the default properties. -/
theorem empty_getD (name : String) (kw : Widget) (ks : WidgetState) :
    (mapLookup (kw, ks) (Theme.empty name).properties).getD
      WidgetProperties.default = WidgetProperties.default := by
  rw [empty_lookup]
  by_cases h : kw ∈ WIDGETS ∧ ks = WidgetState.default
  · rw [if_pos h]; rfl
  · rw [if_neg h]; rfl

/-- Keys outside the known cross-product are absent from a fresh empty
theme. -/
theorem empty_lookup_none {kw : Widget} {ks : WidgetState} (name : String)
    (h : kw ∉ WIDGETS ∨ ks ∉ WIDGET_STATES) :
    mapLookup (kw, ks) (Theme.empty name).properties = none := by
  rw [empty_lookup]
  have : ¬(kw ∈ WIDGETS ∧ ks = WidgetState.default) := by
    rintro ⟨hmem, hks⟩
    rcases h with h | h
    · exact h hmem
    · exact h (hks ▸ (by decide : WidgetState.default ∈ WIDGET_STATES))
  rw [if_neg this]

/-- On the default input, a Light cell's border is non-absent exactly for
the `Button` widget. -/
theorem lightCellProps_border_iff (w : Widget) (s : WidgetState) :
    ((lightCellProps w s WidgetProperties.default).border.isSome = true ↔
      w = Widget.Button) := by
  by_cases hw : w = Widget.Button <;>
    simp [lightCellProps, hw, WidgetProperties.default]

/-- C8: the claim that for every shade every `(widget, state)` pair of the
cross-product is populated with a non-absent background and text style holds
for the `Light` output — the builder succeeds and stores a background fill
and a text style in every cell — but fails for `Dark`: the dark palette's
const-evaluation underflows inside `Color::mix` before any cell is written,
so `default_theme(Dark)` produces no theme at all. -/
theorem default_theme_population :
    default_theme ShadePreference.Dark = none ∧
    ∃ t, default_theme ShadePreference.Light = some t ∧
      ∀ w ∈ WIDGETS, ∀ s ∈ WIDGET_STATES,
        ∃ q, mapLookup (w, s) t.properties = some q ∧
          q.background.isSome = true ∧ q.text.isSome = true := by
  constructor
  · decide
  · obtain ⟨t, ht, hA, hB⟩ :=
      themeFold_light WIDGETS (by decide)
        (Theme.empty ("Default_" ++ ShadePreference.Light.debugStr))
    refine ⟨t, ht, ?_⟩
    intro w hw s hs
    have hlook := hB w hw s hs
    rw [empty_getD] at hlook
    exact ⟨_, hlook, rfl, rfl⟩

/-- C9: in the `Light` output of the builder an entry's border is non-absent
exactly when its widget is `Button`, every populated key lies in the known
widget × state cross-product, and the whole `Button` row is present; for
`Dark` the builder produces no output at all (u16 underflow in the palette's
`Color::mix`), failing the claim's "for both shades". -/
theorem default_theme_border_only_buttons :
    default_theme ShadePreference.Dark = none ∧
    ∃ t, default_theme ShadePreference.Light = some t ∧
      (∀ w ∈ WIDGETS, ∀ s ∈ WIDGET_STATES,
        ∃ q, mapLookup (w, s) t.properties = some q ∧
          (q.border.isSome = true ↔ w = Widget.Button)) ∧
      (∀ k : Key, (mapLookup k t.properties).isSome = true →
        k.1 ∈ WIDGETS ∧ k.2 ∈ WIDGET_STATES) := by
  constructor
  · decide
  · obtain ⟨t, ht, hA, hB⟩ :=
      themeFold_light WIDGETS (by decide)
        (Theme.empty ("Default_" ++ ShadePreference.Light.debugStr))
    refine ⟨t, ht, ?_, ?_⟩
    · intro w hw s hs
      have hlook := hB w hw s hs
      rw [empty_getD] at hlook
      exact ⟨_, hlook, lightCellProps_border_iff w s⟩
    · intro k hk
      by_contra hnot
      rcases k with ⟨kw, ks⟩
      have hdisj : kw ∉ WIDGETS ∨ ks ∉ WIDGET_STATES := by
        by_cases h1 : kw ∈ WIDGETS
        · exact Or.inr (fun h2 => hnot ⟨h1, h2⟩)
        · exact Or.inl h1
      rw [hA (kw, ks) hdisj, empty_lookup_none _ hdisj] at hk
      exact Bool.noConfusion hk

end UiTheme

